import Mathlib

/-!
Verification development for the Neulex frontend (terms-and-conditions
risk analyzer).  The definitions below are shallow embeddings of the
JavaScript functions in `frontend/src/components/Comparison.js`,
`Analysis.js`, `Dashboard.js`, `History.js` and `Profile.js`.

Modelling conventions:
* JS numbers are modelled as `ℚ` (the scores are finite decimals; NaN is
  outside the model).
* A possibly-`undefined` JS value is `Option _`; the JS `x || y`
  operator on numbers (which falls through on `undefined` and on `0`)
  is `jsOr`, and on strings (falls through on `undefined` and `""`) is
  `jsOrS`.
* A JS comparison `x >= c` where `x` may be `undefined` evaluates to
  `false` when `x` is `undefined`; this is `jsGe`.
-/

namespace Neulex

/-- The `risk_scores` object of an analysis result; each field may be
absent in the upstream JSON. -/
structure RiskScores where
  data_risk : Option ℚ
  user_rights_score : Option ℚ
  readability_score : Option ℚ
  overall_risk : Option ℚ
  termination_risk : Option ℚ
deriving DecidableEq

/-- An analysis / comparison record as the frontend receives it: a
possibly missing nested `risk_scores` object, possibly missing top-level
score fields, and a possibly missing `risk_level` string. -/
structure AnalysisData where
  risk_scores : Option RiskScores
  data_risk : Option ℚ
  user_rights_score : Option ℚ
  readability_score : Option ℚ
  overall_risk : Option ℚ
  termination_risk : Option ℚ
  risk_level : Option String
deriving DecidableEq

/-- The `{high, medium, low}` counters built by the dashboard's
`calculateRiskDistribution`. -/
structure RiskDist where
  high : ℕ
  medium : ℕ
  low : ℕ
deriving DecidableEq

/-- The object returned by `Analysis.js`'s `parseTableData`. -/
structure ParsedAnalysis where
  risk_scores : RiskScores
  risk_level : String
  summary : String
  data_collection : List String
  user_rights : List String
  recommendations : List String
deriving DecidableEq

/-- JS `x || d` for a possibly-undefined number `x`: `undefined` and `0`
are falsy and fall through to `d`. -/
def jsOr : Option ℚ → ℚ → ℚ
  | some v, d => if v = 0 then d else v
  | none, d => d

/-- JS `x || d` for a possibly-undefined string `x`: `undefined` and the
empty string are falsy and fall through to `d`. -/
def jsOrS : Option String → String → String
  | some s, d => if s = "" then d else s
  | none, d => d

/-- JS `x >= c` where `x` may be `undefined` (any comparison with
`undefined` is `false`). -/
def jsGe : Option ℚ → ℚ → Bool
  | some v, c => decide (c ≤ v)
  | none, _ => false

/-- `getRiskLevel` (identical copies in `Comparison.js` line 229 and
`Analysis.js` line 735): `score >= 7 → 'high'`, `score >= 4 → 'medium'`,
otherwise `'low'`. -/
def getRiskLevel (score : ℚ) : String :=
  if score ≥ 7 then "high" else if score ≥ 4 then "medium" else "low"

/-- `getRiskColor` (identical copies in `Comparison.js` line 247 and
`Analysis.js` line 774). -/
def getRiskColor (score : ℚ) : String :=
  if score ≥ 7 then "#ff4757" else if score ≥ 4 then "#ffa502" else "#2ed573"

/-- The risk badge of `History.js` line 159:
`analysis.risk_score >= 7 ? 'high' : analysis.risk_score >= 4 ? 'medium' : 'low'`. -/
def historyRiskBadge (risk_score : Option ℚ) : String :=
  if jsGe risk_score 7 then "high" else if jsGe risk_score 4 then "medium" else "low"

/-- The risk badge of `Dashboard.js` line 209 (same expression as the
history badge). -/
def dashboardRecentBadge (risk_score : Option ℚ) : String :=
  if jsGe risk_score 7 then "high" else if jsGe risk_score 4 then "medium" else "low"

/-- One step of `Dashboard.js`'s `calculateRiskDistribution` `forEach`
body: bucket one `analysis.risk_score` into the distribution. -/
def calcDistStep (d : RiskDist) (risk : Option ℚ) : RiskDist :=
  if jsGe risk 7 then { d with high := d.high + 1 }
  else if jsGe risk 4 then { d with medium := d.medium + 1 }
  else { d with low := d.low + 1 }

/-- `Dashboard.js` `calculateRiskDistribution` (lines 72-83), on the
sequence of `risk_score` fields of the analyses. -/
def calculateRiskDistribution (analyses : List (Option ℚ)) : RiskDist :=
  analyses.foldl calcDistStep ⟨0, 0, 0⟩

/-- `Comparison.js` `toggleCompany` (lines 50-62): deselect a selected
id, otherwise append it unless 4 companies are already selected. -/
def toggleCompany {α : Type} [DecidableEq α] (selected : List α) (companyId : α) : List α :=
  if companyId ∈ selected then selected.filter (· != companyId)
  else if selected.length ≥ 4 then selected
  else selected ++ [companyId]

/-- `Comparison.js` `runComparison` (lines 64-109), reduced to its data
flow: reject (return, i.e. `none`) when fewer than 2 companies are
selected, otherwise build the request body's company-name list by
resolving each selected id in `companies` and dropping unresolved ones. -/
def runComparisonRequest (companies : List (ℕ × String)) (selected : List ℕ) : Option (List String) :=
  if selected.length < 2 then none
  else some (selected.filterMap (fun id => (companies.find? (fun c => c.1 == id)).map (fun c => c.2)))

/-- `Profile.js` `toggleConcern` (lines 19-26): remove a present concern
tag, append an absent one. -/
def toggleConcern {α : Type} [DecidableEq α] (dataConcerns : List α) (concern : α) : List α :=
  if concern ∈ dataConcerns then dataConcerns.filter (· != concern)
  else dataConcerns ++ [concern]

/-- Rendering of a score inside an insight template (the embedding's
stand-in for JS number-to-string conversion in a template literal). -/
def scoreText (q : ℚ) : String :=
  toString q

/-- `analysis?.risk_scores?.overall_risk || analysis?.overall_risk || 0`
(`Comparison.js` lines 185-186). -/
def effOverall (a : AnalysisData) : ℚ :=
  jsOr (a.risk_scores.bind (fun rs => rs.overall_risk)) (jsOr a.overall_risk 0)

/-- `analysis?.risk_scores?.data_risk || analysis?.data_risk || 0`
(`Comparison.js` lines 196-197). -/
def effDataRisk (a : AnalysisData) : ℚ :=
  jsOr (a.risk_scores.bind (fun rs => rs.data_risk)) (jsOr a.data_risk 0)

/-- Template of `Comparison.js` line 189. -/
def url1HigherOverall (risk1 risk2 : ℚ) : String :=
  "URL 1 has higher overall risk than URL 2 (" ++ scoreText risk1 ++ " vs " ++ scoreText risk2 ++ ")"

/-- Template of `Comparison.js` line 191. -/
def url2HigherOverall (risk2 risk1 : ℚ) : String :=
  "URL 2 has higher overall risk than URL 1 (" ++ scoreText risk2 ++ " vs " ++ scoreText risk1 ++ ")"

/-- Template of `Comparison.js` line 193. -/
def similarOverall : String :=
  "Both URLs have similar overall risk levels"

/-- Template of `Comparison.js` line 200. -/
def url1MoreData : String :=
  "URL 1 collects more user data than URL 2"

/-- Template of `Comparison.js` line 202. -/
def url2MoreData : String :=
  "URL 2 collects more user data than URL 1"

/-- The overall-risk insight pushed by `Comparison.js` lines 188-194:
strict comparison of the two overall risks, "similar" exactly on
equality. -/
def overallInsightPart (analysis1 analysis2 : AnalysisData) : List String :=
  if effOverall analysis1 > effOverall analysis2 then
    [url1HigherOverall (effOverall analysis1) (effOverall analysis2)]
  else if effOverall analysis2 > effOverall analysis1 then
    [url2HigherOverall (effOverall analysis2) (effOverall analysis1)]
  else [similarOverall]

/-- The data-risk insight pushed by `Comparison.js` lines 199-203:
nothing is pushed when the data risks are equal. -/
def dataInsightPart (analysis1 analysis2 : AnalysisData) : List String :=
  if effDataRisk analysis1 > effDataRisk analysis2 then [url1MoreData]
  else if effDataRisk analysis2 > effDataRisk analysis1 then [url2MoreData]
  else []

/-- `Comparison.js` `generateUrlInsights` (lines 182-206): the
overall-risk insight followed by the conditional data-risk insight. -/
def generateUrlInsights (analysis1 analysis2 : AnalysisData) : List String :=
  overallInsightPart analysis1 analysis2 ++ dataInsightPart analysis1 analysis2

/-- The per-item body of `Comparison.js` `formatComparisonData`
(lines 214-222): keep an existing `risk_scores` object unchanged,
otherwise build one from the top-level fields with `|| 0` defaults (note:
no `termination_risk` key in the substitute object), and default the
`risk_level` from the overall risk. -/
def formatComparisonItem (comp : AnalysisData) : AnalysisData :=
  { comp with
    risk_scores := some (match comp.risk_scores with
      | some rs => rs
      | none =>
        { data_risk := some (jsOr comp.data_risk 0)
          user_rights_score := some (jsOr comp.user_rights_score 0)
          readability_score := some (jsOr comp.readability_score 0)
          overall_risk := some (jsOr comp.overall_risk 0)
          termination_risk := none })
    risk_level := some (jsOrS comp.risk_level
      (getRiskLevel (jsOr comp.overall_risk
        (jsOr (comp.risk_scores.bind (fun rs => rs.overall_risk)) 0)))) }

/-- `Comparison.js` `formatComparisonData` (lines 209-227): map the item
formatter over `comparisons` (absent list becomes `[]`, absent input
becomes `null`). -/
def formatComparisonData (comparisonData : Option (Option (List AnalysisData))) : Option (List AnalysisData) :=
  match comparisonData with
  | none => none
  | some comparisons => some (((comparisons.map (fun l => l.map formatComparisonItem)).getD []))

/-- The object branch of `Analysis.js` `formatAnalysisData`
(lines 669-680): like the comparison item formatter but the substitute
`risk_scores` object also carries `termination_risk: ... || 0`. -/
def formatAnalysisObj (analysisData : AnalysisData) : AnalysisData :=
  { analysisData with
    risk_scores := some (match analysisData.risk_scores with
      | some rs => rs
      | none =>
        { data_risk := some (jsOr analysisData.data_risk 0)
          user_rights_score := some (jsOr analysisData.user_rights_score 0)
          readability_score := some (jsOr analysisData.readability_score 0)
          overall_risk := some (jsOr analysisData.overall_risk 0)
          termination_risk := some (jsOr analysisData.termination_risk 0) })
    risk_level := some (jsOrS analysisData.risk_level
      (getRiskLevel (jsOr analysisData.overall_risk
        (jsOr (analysisData.risk_scores.bind (fun rs => rs.overall_risk)) 0)))) }

/-- User-rights badge class at `Comparison.js` line 416:
`getRiskLevel(10 - (comp.risk_scores?.user_rights_score || 0))`. -/
def compUserRightsBadgeClass (risk_scores : Option RiskScores) : String :=
  getRiskLevel (10 - jsOr (risk_scores.bind (fun rs => rs.user_rights_score)) 0)

/-- Readability badge class at `Comparison.js` line 422. -/
def compReadabilityBadgeClass (risk_scores : Option RiskScores) : String :=
  getRiskLevel (10 - jsOr (risk_scores.bind (fun rs => rs.readability_score)) 0)

/-- User-rights card class at `Analysis.js` line 911. -/
def analysisUserRightsCardClass (risk_scores : Option RiskScores) : String :=
  getRiskLevel (10 - jsOr (risk_scores.bind (fun rs => rs.user_rights_score)) 0)

/-- Readability card class at `Analysis.js` line 918. -/
def analysisReadabilityCardClass (risk_scores : Option RiskScores) : String :=
  getRiskLevel (10 - jsOr (risk_scores.bind (fun rs => rs.readability_score)) 0)

/-- User-rights chart color at `Analysis.js` line 782:
`getRiskColor(10 - (analysis.risk_scores?.user_rights_score || 0))`. -/
def chartUserRightsColor (risk_scores : Option RiskScores) : String :=
  getRiskColor (10 - jsOr (risk_scores.bind (fun rs => rs.user_rights_score)) 0)

/-- Readability chart color at `Analysis.js` line 784. -/
def chartReadabilityColor (risk_scores : Option RiskScores) : String :=
  getRiskColor (10 - jsOr (risk_scores.bind (fun rs => rs.readability_score)) 0)

/-- Numeric value of a decimal digit character. -/
def digitVal (c : Char) : ℕ :=
  c.toNat - ('0').toNat

/-- Value of a run of decimal digit characters. -/
def digitsToNat (ds : List Char) : ℕ :=
  ds.foldl (fun n c => 10 * n + digitVal c) 0

/-- JS `parseFloat` on a capture of shape `digits` or `digits.digits`
(the only shapes group 1 of `/(\d+(\.\d+)?)\/10/` can take). -/
def parseGroup (g : List Char) : ℚ :=
  match (g.span (fun c => c.isDigit)).2 with
  | [] => (digitsToNat (g.span (fun c => c.isDigit)).1 : ℚ)
  | c :: fracPart =>
    if c = '.' then
      (digitsToNat (g.span (fun c => c.isDigit)).1 : ℚ) +
        (digitsToNat fracPart : ℚ) / (10 : ℚ) ^ fracPart.length
    else 0

/-- Attempt to match the regex `(\d+(\.\d+)?)\/10` at the head of `cs`,
returning the text of capture group 1 on success.  Greedy `\d+` needs no
backtracking here because a digit can never begin the trailing
`.digits` or `/10` part. -/
def matchAt (cs : List Char) : Option (List Char) :=
  let p := cs.span (fun c => c.isDigit)
  if p.1 = [] then none
  else
    match p.2 with
    | '.' :: rest2 =>
      let q := rest2.span (fun c => c.isDigit)
      match q.1, q.2 with
      | [], _ => none
      | _ :: _, '/' :: '1' :: '0' :: _ => some (p.1 ++ '.' :: q.1)
      | _ :: _, _ => none
    | '/' :: '1' :: '0' :: _ => some p.1
    | _ => none

/-- JS `String.prototype.match` scan order: try the pattern at each
start position from the left, first success wins. -/
def firstMatch : List Char → Option (List Char)
  | [] => none
  | c :: rest =>
    match matchAt (c :: rest) with
    | some g => some g
    | none => firstMatch rest

/-- `Analysis.js` `extractScore` (lines 730-733):
`line.match(/(\d+(\.\d+)?)\/10/)`, `parseFloat` of group 1, `0` when the
line has no match. -/
def extractScore (line : String) : ℚ :=
  match firstMatch line.data with
  | some g => parseGroup g
  | none => 0

/-- JS `line.includes(sub)`. -/
def lineHas (sub : String) (line : String) : Bool :=
  decide (sub.data <:+: line.data)

/-- All fields absent: the `const riskScores = {}` of `parseTableData`. -/
def emptyScores : RiskScores :=
  ⟨none, none, none, none, none⟩

/-- The `forEach` body of `Analysis.js` `parseTableData` (lines 691-701):
assign the extracted score of a recognized line to its field. -/
def parseStep (riskScores : RiskScores) (line : String) : RiskScores :=
  if lineHas ("Data Risk:") line then { riskScores with data_risk := some (extractScore line) }
  else if lineHas ("User Rights:") line then { riskScores with user_rights_score := some (extractScore line) }
  else if lineHas ("Readability:") line then { riskScores with readability_score := some (extractScore line) }
  else if lineHas ("Overall Risk:") line then { riskScores with overall_risk := some (extractScore line) }
  else riskScores

/-- JS `tableString.split('\n')`, on the character list. -/
def splitLinesAux (acc : List Char) : List Char → List (List Char)
  | [] => [acc.reverse]
  | c :: rest =>
    if c = '\n' then acc.reverse :: splitLinesAux [] rest
    else splitLinesAux (c :: acc) rest

/-- JS `tableString.split('\n')`. -/
def splitLines (s : String) : List String :=
  (splitLinesAux [] s.data).map (fun l => String.mk l)

/-- JS truthiness of `line.trim()`: the trimmed line is non-empty iff
the line holds some non-whitespace character. -/
def trimNonempty (line : String) : Bool :=
  line.data.any (fun c => !c.isWhitespace)

/-- `Analysis.js` `parseTableData` (lines 686-728).  The `catch` branch
is unreachable in the model (no step of the body can throw), so only the
`try` body is embedded. -/
def parseTableData (tableString : String) : ParsedAnalysis :=
  let lines := (splitLines tableString).filter trimNonempty
  let riskScores := lines.foldl parseStep emptyScores
  { risk_scores := riskScores
    risk_level := getRiskLevel (jsOr riskScores.overall_risk 0)
    summary := "Analysis completed successfully"
    data_collection := ["Data collection practices analyzed"]
    user_rights := ["User rights assessment completed"]
    recommendations := ["Review the detailed risk scores above"] }

/-- `Analysis.js` `formatAnalysisData` (lines 661-683): `null` input
passes through, a string response is parsed as table data, an object
response is normalized by `formatAnalysisObj`. -/
def formatAnalysisData (analysisData : Option (Sum String AnalysisData)) : Option (Sum ParsedAnalysis AnalysisData) :=
  match analysisData with
  | none => none
  | some (Sum.inl tableString) => some (Sum.inl (parseTableData tableString))
  | some (Sum.inr obj) => some (Sum.inr (formatAnalysisObj obj))

/-! ## Concrete records used in witnesses and counterexamples -/

/-- A record whose only populated field is `risk_scores.overall_risk = 5.01`. -/
def epsHighRec : AnalysisData :=
  ⟨some ⟨none, none, none, some (501/100), none⟩, none, none, none, none, none, none⟩

/-- A record whose only populated field is `risk_scores.overall_risk = 5`. -/
def epsLowRec : AnalysisData :=
  ⟨some ⟨none, none, none, some 5, none⟩, none, none, none, none, none, none⟩

/-- A fully populated high-risk record (integer scores). -/
def fullHighRec : AnalysisData :=
  ⟨some ⟨some 6, some 2, some 3, some 8, some 7⟩, none, none, none, none, none, none⟩

/-- A fully populated low-risk record (integer scores). -/
def fullLowRec : AnalysisData :=
  ⟨some ⟨some 2, some 9, some 8, some 3, some 1⟩, none, none, none, none, none, none⟩

/-- A record with no `risk_scores` object and no top-level scores. -/
def blankAnalysis : AnalysisData :=
  ⟨none, none, none, none, none, none, none⟩

/-! ## Helper lemmas -/

theorem jsOr_some_zero (q : ℚ) : jsOr (some q) 0 = q := by
  simp only [jsOr]
  split_ifs with h
  · exact h.symm
  · rfl

theorem getRiskLevel_eq_high (s : ℚ) : getRiskLevel s = "high" ↔ 7 ≤ s := by
  unfold getRiskLevel
  split_ifs with h1 h2 <;> simp_all

theorem getRiskLevel_eq_medium (s : ℚ) : getRiskLevel s = "medium" ↔ 4 ≤ s ∧ s < 7 := by
  unfold getRiskLevel
  split_ifs with h1 h2 <;> simp_all

theorem getRiskLevel_eq_low (s : ℚ) : getRiskLevel s = "low" ↔ s < 4 := by
  unfold getRiskLevel
  split_ifs with h1 h2 <;> simp_all
  linarith

theorem getRiskColor_eq_red (s : ℚ) : getRiskColor s = "#ff4757" ↔ 7 ≤ s := by
  unfold getRiskColor
  split_ifs with h1 h2 <;> simp_all

theorem getRiskColor_eq_green (s : ℚ) : getRiskColor s = "#2ed573" ↔ s < 4 := by
  unfold getRiskColor
  split_ifs with h1 h2 <;> simp_all
  linarith

theorem url1HigherOverall_ne_url2 (a b c d : ℚ) : url1HigherOverall a b ≠ url2HigherOverall c d := by
  have h1 : (url1HigherOverall a b).data[4]? = some '1' := by
    simp only [url1HigherOverall, String.data_append, List.append_assoc]
    rw [List.getElem?_append_left (by decide)]
    decide
  have h2 : (url2HigherOverall c d).data[4]? = some '2' := by
    simp only [url2HigherOverall, String.data_append, List.append_assoc]
    rw [List.getElem?_append_left (by decide)]
    decide
  intro he
  rw [he, h2] at h1
  exact absurd h1 (by decide)

theorem url1HigherOverall_ne_similar (a b : ℚ) : url1HigherOverall a b ≠ similarOverall := by
  have h1 : (url1HigherOverall a b).data[0]? = some 'U' := by
    simp only [url1HigherOverall, String.data_append, List.append_assoc]
    rw [List.getElem?_append_left (by decide)]
    decide
  intro he
  rw [he] at h1
  exact absurd h1 (by decide)

theorem url2HigherOverall_ne_similar (a b : ℚ) : url2HigherOverall a b ≠ similarOverall := by
  have h1 : (url2HigherOverall a b).data[0]? = some 'U' := by
    simp only [url2HigherOverall, String.data_append, List.append_assoc]
    rw [List.getElem?_append_left (by decide)]
    decide
  intro he
  rw [he] at h1
  exact absurd h1 (by decide)

/-! ## Claims -/

/-- C1: the risk bucketing returns `high` iff `score ≥ 7`, `medium` iff
`4 ≤ score < 7` and `low` iff `score < 4` (lower bounds inclusive), and
the same bucketing is applied at the classifying call sites: the history
and dashboard risk badges, and the dashboard risk-distribution counter,
which increments exactly the bucket `getRiskLevel` assigns to the
score. -/
theorem c1_risk_bucketing_uniform :
    (∀ s : ℚ,
      (getRiskLevel s = "high" ↔ 7 ≤ s) ∧
      (getRiskLevel s = "medium" ↔ 4 ≤ s ∧ s < 7) ∧
      (getRiskLevel s = "low" ↔ s < 4)) ∧
    (∀ s : ℚ,
      historyRiskBadge (some s) = getRiskLevel s ∧
      dashboardRecentBadge (some s) = getRiskLevel s) ∧
    (∀ (d : RiskDist) (s : ℚ),
      (getRiskLevel s = "high" → calcDistStep d (some s) = { d with high := d.high + 1 }) ∧
      (getRiskLevel s = "medium" → calcDistStep d (some s) = { d with medium := d.medium + 1 }) ∧
      (getRiskLevel s = "low" → calcDistStep d (some s) = { d with low := d.low + 1 })) := by
  refine ⟨fun s => ⟨getRiskLevel_eq_high s, getRiskLevel_eq_medium s, getRiskLevel_eq_low s⟩,
    fun s => ⟨?_, ?_⟩, fun d s => ⟨?_, ?_, ?_⟩⟩
  · simp [historyRiskBadge, jsGe, getRiskLevel]
  · simp [dashboardRecentBadge, jsGe, getRiskLevel]
  · intro h
    have h7 := (getRiskLevel_eq_high s).mp h
    simp [calcDistStep, jsGe, h7]
  · intro h
    have hm := (getRiskLevel_eq_medium s).mp h
    have h7 : ¬ (7 : ℚ) ≤ s := not_le.mpr hm.2
    simp [calcDistStep, jsGe, h7, hm.1]
  · intro h
    have hl := (getRiskLevel_eq_low s).mp h
    have h7 : ¬ (7 : ℚ) ≤ s := by linarith
    have h4 : ¬ (4 : ℚ) ≤ s := not_le.mpr hl
    simp [calcDistStep, jsGe, h7, h4]

/-- Witness for C1 at the concrete score 8: it is classified `high` and
the distribution step increments the `high` counter. -/
theorem c1_risk_bucketing_uniform_witness :
    getRiskLevel 8 = "high" ∧ calcDistStep ⟨0, 0, 0⟩ (some 8) = ⟨1, 0, 0⟩ :=
  ⟨by decide, (c1_risk_bucketing_uniform.2.2 ⟨0, 0, 0⟩ 8).1 (by decide)⟩

/-- C4: a comparison request is rejected (no request is built) exactly
when fewer than 2 companies are selected, and the selection toggle never
grows a selection of at most 4 entries beyond 4. -/
theorem c4_comparison_input_bounds :
    (∀ (companies : List (ℕ × String)) (selected : List ℕ),
      runComparisonRequest companies selected = none ↔ selected.length < 2) ∧
    (∀ (selected : List ℕ) (companyId : ℕ), selected.length ≤ 4 →
      (toggleCompany selected companyId).length ≤ 4) := by
  constructor
  · intro companies selected
    unfold runComparisonRequest
    split_ifs with h <;> simp [h]
  · intro selected companyId hlen
    unfold toggleCompany
    split_ifs with h1 h2
    · exact le_trans (List.length_filter_le _ _) hlen
    · exact hlen
    · rw [List.length_append]
      simp only [List.length_singleton]
      omega

/-- Witness for C4: the empty selection is rejected, and toggling a new
id on a 2-element selection stays within the cap. -/
theorem c4_comparison_input_bounds_witness :
    runComparisonRequest [] [] = none ∧ (toggleCompany [1, 2] 3).length ≤ 4 :=
  ⟨(c4_comparison_input_bounds.1 [] []).mpr (by decide),
   c4_comparison_input_bounds.2 [1, 2] 3 (by decide)⟩

/-- C9: `toggleCompany` preserves the invariant that the selected list
is duplicate-free with at most 4 entries. -/
theorem c9_toggle_company_invariant {α : Type} [DecidableEq α] (selected : List α)
    (companyId : α) (hnd : selected.Nodup) (hlen : selected.length ≤ 4) :
    (toggleCompany selected companyId).Nodup ∧ (toggleCompany selected companyId).length ≤ 4 := by
  unfold toggleCompany
  split_ifs with h1 h2
  · exact ⟨hnd.filter _, le_trans (List.length_filter_le _ _) hlen⟩
  · exact ⟨hnd, hlen⟩
  · refine ⟨List.nodup_append.mpr ⟨hnd, List.nodup_singleton _, ?_⟩, ?_⟩
    · intro x hx hx'
      rw [List.mem_singleton] at hx'
      exact h1 (hx' ▸ hx)
    · rw [List.length_append]
      simp only [List.length_singleton]
      omega

/-- Witness for C9 at the selection `[1, 2]` and a fresh id `3`. -/
theorem c9_toggle_company_invariant_witness :
    (toggleCompany [1, 2] (3 : ℕ)).Nodup ∧ (toggleCompany [1, 2] (3 : ℕ)).length ≤ 4 :=
  c9_toggle_company_invariant [1, 2] 3 (by decide) (by decide)

/-- Counterexample to C10 as stated: toggling `data_collection` twice on
the duplicate-free list `[data_collection, cookies]` moves the tag to
the end, so the resulting list is not equal to the original. -/
theorem c10_toggle_twice_counterexample :
    toggleConcern (toggleConcern ["data_collection", "cookies"] ("data_collection")) ("data_collection") ≠
      ["data_collection", "cookies"] ∧
    toggleConcern (toggleConcern ["data_collection", "cookies"] ("data_collection")) ("data_collection") =
      ["cookies", "data_collection"] := by
  constructor <;> decide

/-- C10 amended: on a duplicate-free concern list, toggling the same tag
twice yields a permutation of the original list (the same set of
concerns); plain list equality holds whenever the toggled tag was not
present (a present tag is re-appended at the end instead). -/
theorem c10_toggle_twice_perm {α : Type} [DecidableEq α] (l : List α) (c : α)
    (hnd : l.Nodup) :
    (toggleConcern (toggleConcern l c) c).Perm l ∧
    (c ∉ l → toggleConcern (toggleConcern l c) c = l) := by
  by_cases hmem : c ∈ l
  · have h1 : toggleConcern l c = l.filter (· != c) := by
      simp [toggleConcern, hmem]
    have hf : c ∉ l.filter (· != c) := by
      simp
    have h2 : toggleConcern (toggleConcern l c) c = l.filter (· != c) ++ [c] := by
      rw [h1]
      simp [toggleConcern, hf]
    refine ⟨?_, fun hno => absurd hmem hno⟩
    rw [h2, ← hnd.erase_eq_filter]
    exact (List.perm_append_singleton c _).trans (List.perm_cons_erase hmem).symm
  · have h1 : toggleConcern l c = l ++ [c] := by
      simp [toggleConcern, hmem]
    have h2 : toggleConcern (toggleConcern l c) c = l := by
      rw [h1]
      have hin : c ∈ l ++ [c] := List.mem_append_right _ (List.mem_singleton_self c)
      simp only [toggleConcern, if_pos hin, List.filter_append]
      have hl : l.filter (· != c) = l := by
        rw [List.filter_eq_self]
        intro a ha
        simp only [bne_iff_ne, ne_eq]
        exact fun he => hmem (he ▸ ha)
      have hc : ([c].filter (· != c)) = [] := by simp
      rw [hl, hc, List.append_nil]
    exact ⟨by rw [h2], fun _ => h2⟩

/-- Witness for C10 amended: toggling `third_party` twice on
`[cookies]` gives back `[cookies]` exactly (and in particular a
permutation of it). -/
theorem c10_toggle_twice_perm_witness :
    (toggleConcern (toggleConcern ["cookies"] ("third_party")) ("third_party")).Perm ["cookies"] :=
  (c10_toggle_twice_perm ["cookies"] ("third_party") (by decide)).1

theorem generateUrlInsights_head (a1 a2 : AnalysisData) :
    (generateUrlInsights a1 a2).head? =
      if effOverall a1 > effOverall a2 then
        some (url1HigherOverall (effOverall a1) (effOverall a2))
      else if effOverall a2 > effOverall a1 then
        some (url2HigherOverall (effOverall a2) (effOverall a1))
      else some similarOverall := by
  unfold generateUrlInsights overallInsightPart
  split_ifs <;> rfl

theorem dataInsightPart_length (a1 a2 : AnalysisData) :
    (dataInsightPart a1 a2).length =
      if effDataRisk a1 = effDataRisk a2 then 0 else 1 := by
  unfold dataInsightPart
  rcases lt_trichotomy (effDataRisk a1) (effDataRisk a2) with h | h | h
  · rw [if_neg (lt_asymm h), if_pos h, if_neg (ne_of_lt h)]
    rfl
  · have hn1 : ¬ effDataRisk a1 > effDataRisk a2 := by rw [h]; exact lt_irrefl _
    have hn2 : ¬ effDataRisk a2 > effDataRisk a1 := by rw [h]; exact lt_irrefl _
    rw [if_neg hn1, if_neg hn2, if_pos h]
    rfl
  · rw [if_pos h, if_neg (ne_of_gt h)]
    rfl

/-- Counterexample to C2 as stated: with overall risks `5.01` and `5`
the two records are equal within the claimed tolerance `0.05`, yet the
generated insight says URL 1 has higher risk instead of "similar". -/
theorem c2_epsilon_counterexample :
    |effOverall epsHighRec - effOverall epsLowRec| ≤ 1/20 ∧
    (generateUrlInsights epsHighRec epsLowRec).head? =
      some (url1HigherOverall (effOverall epsHighRec) (effOverall epsLowRec)) ∧
    (generateUrlInsights epsHighRec epsLowRec).head? ≠ some similarOverall := by
  have hA : effOverall epsHighRec = 501/100 := by
    simp only [effOverall, epsHighRec]
    norm_num [jsOr]
  have hB : effOverall epsLowRec = 5 := by
    simp only [effOverall, epsLowRec]
    norm_num [jsOr]
  have hgt : effOverall epsHighRec > effOverall epsLowRec := by
    rw [hA, hB]; norm_num
  have hhead : (generateUrlInsights epsHighRec epsLowRec).head? =
      some (url1HigherOverall (effOverall epsHighRec) (effOverall epsLowRec)) := by
    rw [generateUrlInsights_head, if_pos hgt]
  refine ⟨?_, hhead, ?_⟩
  · rw [hA, hB]
    have hd : (501/100 : ℚ) - 5 = 1/100 := by norm_num
    rw [hd, abs_of_pos (by norm_num)]
    norm_num
  · rw [hhead]
    intro hc
    exact url1HigherOverall_ne_similar _ _ (Option.some.inj hc)

/-- C2 amended: the overall-risk insight compares the two overall risks
strictly, with no epsilon tolerance — it states URL 1 higher iff
`risk1 > risk2`, URL 2 higher iff `risk2 > risk1`, and "similar" iff the
two risks are exactly equal (epsilon is effectively 0, not 0.05). -/
theorem c2_overall_insight_strict (a1 a2 : AnalysisData) :
    ((generateUrlInsights a1 a2).head? =
        some (url1HigherOverall (effOverall a1) (effOverall a2)) ↔
      effOverall a1 > effOverall a2) ∧
    ((generateUrlInsights a1 a2).head? =
        some (url2HigherOverall (effOverall a2) (effOverall a1)) ↔
      effOverall a2 > effOverall a1) ∧
    ((generateUrlInsights a1 a2).head? = some similarOverall ↔
      effOverall a1 = effOverall a2) := by
  rw [generateUrlInsights_head]
  rcases lt_trichotomy (effOverall a1) (effOverall a2) with h | h | h
  · rw [if_neg (lt_asymm h), if_pos h]
    exact ⟨⟨fun hc => absurd (Option.some.inj hc).symm
        (url1HigherOverall_ne_url2 _ _ _ _), fun hc => absurd hc (lt_asymm h)⟩,
      ⟨fun _ => h, fun _ => rfl⟩,
      ⟨fun hc => absurd (Option.some.inj hc) (url2HigherOverall_ne_similar _ _),
       fun hc => absurd h (by rw [hc]; exact lt_irrefl _)⟩⟩
  · have hn1 : ¬ effOverall a1 > effOverall a2 := by rw [h]; exact lt_irrefl _
    have hn2 : ¬ effOverall a2 > effOverall a1 := by rw [h]; exact lt_irrefl _
    rw [if_neg hn1, if_neg hn2]
    exact ⟨⟨fun hc => absurd (Option.some.inj hc).symm
        (url1HigherOverall_ne_similar _ _), fun hc => absurd hc hn1⟩,
      ⟨fun hc => absurd (Option.some.inj hc).symm
        (url2HigherOverall_ne_similar _ _), fun hc => absurd hc hn2⟩,
      ⟨fun _ => h, fun _ => rfl⟩⟩
  · rw [if_pos h]
    exact ⟨⟨fun _ => h, fun _ => rfl⟩,
      ⟨fun hc => absurd (Option.some.inj hc)
        (url1HigherOverall_ne_url2 _ _ _ _), fun hc => absurd hc (lt_asymm h)⟩,
      ⟨fun hc => absurd (Option.some.inj hc) (url1HigherOverall_ne_similar _ _),
       fun hc => absurd h (by rw [hc]; exact lt_irrefl _)⟩⟩

/-- Counterexample to C5 as stated: for two fully-populated records the
insight list has 2 entries, not one per each of the five claimed
dimensions. -/
theorem c5_two_insights_counterexample :
    (generateUrlInsights fullHighRec fullLowRec).length = 2 ∧ (2 : ℕ) ≠ 5 := by
  constructor
  · decide
  · decide

/-- C5 amended: the insight list holds only an overall-risk insight
(always first) and a data-risk insight (second, present exactly when the
two data risks differ); no user-rights, readability or termination
insight is ever generated, so the list length is 1 or 2, never 5. -/
theorem c5_insights_only_two_dimensions (a1 a2 : AnalysisData) :
    ((generateUrlInsights a1 a2).length =
      if effDataRisk a1 = effDataRisk a2 then 1 else 2) ∧
    ((generateUrlInsights a1 a2).head? =
        some (url1HigherOverall (effOverall a1) (effOverall a2)) ∨
     (generateUrlInsights a1 a2).head? =
        some (url2HigherOverall (effOverall a2) (effOverall a1)) ∨
     (generateUrlInsights a1 a2).head? = some similarOverall) ∧
    ((generateUrlInsights a1 a2)[1]? =
      if effDataRisk a1 > effDataRisk a2 then some url1MoreData
      else if effDataRisk a2 > effDataRisk a1 then some url2MoreData
      else none) := by
  refine ⟨?_, ?_, ?_⟩
  · have hover : (overallInsightPart a1 a2).length = 1 := by
      unfold overallInsightPart
      split_ifs <;> rfl
    rw [generateUrlInsights, List.length_append, hover, dataInsightPart_length]
    split_ifs <;> rfl
  · rw [generateUrlInsights_head]
    split_ifs with h1 h2
    · exact Or.inl rfl
    · exact Or.inr (Or.inl rfl)
    · exact Or.inr (Or.inr rfl)
  · unfold generateUrlInsights overallInsightPart dataInsightPart
    split_ifs <;> rfl

/-- C6: whenever the two overall risks differ, the overall insight names
the higher-risk URL first and lists the two numeric values with the
higher one first in the parenthesized pair. -/
theorem c6_higher_value_first (a1 a2 : AnalysisData) :
    (effOverall a1 > effOverall a2 →
      (generateUrlInsights a1 a2).head? =
        some (url1HigherOverall (effOverall a1) (effOverall a2))) ∧
    (effOverall a2 > effOverall a1 →
      (generateUrlInsights a1 a2).head? =
        some (url2HigherOverall (effOverall a2) (effOverall a1))) := by
  rw [generateUrlInsights_head]
  constructor
  · intro h
    rw [if_pos h]
  · intro h
    rw [if_neg (lt_asymm h), if_pos h]

/-- Witness for C6 at overall risks 8 and 3: the first insight is the
URL 1 template with 8 listed before 3. -/
theorem c6_higher_value_first_witness :
    effOverall fullHighRec > effOverall fullLowRec ∧
    (generateUrlInsights fullHighRec fullLowRec).head? =
      some (url1HigherOverall (effOverall fullHighRec) (effOverall fullLowRec)) :=
  ⟨by decide, (c6_higher_value_first fullHighRec fullLowRec).1 (by decide)⟩

/-- Counterexample to C3 as stated: formatting a comparison record with
no scores at all substitutes `0` (not the claimed midpoint `5.0`) for
each score, and omits `termination_risk` from the substitute object
entirely. -/
theorem c3_default_counterexample :
    (formatComparisonItem blankAnalysis).risk_scores =
      some ⟨some 0, some 0, some 0, some 0, none⟩ ∧ (0 : ℚ) ≠ 5 := by
  constructor
  · decide
  · decide

theorem formatComparisonItem_risk_scores (a : AnalysisData) :
    (formatComparisonItem a).risk_scores = some (match a.risk_scores with
      | some rs => rs
      | none => ⟨some (jsOr a.data_risk 0), some (jsOr a.user_rights_score 0),
          some (jsOr a.readability_score 0), some (jsOr a.overall_risk 0), none⟩) := rfl

theorem formatAnalysisObj_risk_scores (a : AnalysisData) :
    (formatAnalysisObj a).risk_scores = some (match a.risk_scores with
      | some rs => rs
      | none => ⟨some (jsOr a.data_risk 0), some (jsOr a.user_rights_score 0),
          some (jsOr a.readability_score 0), some (jsOr a.overall_risk 0),
          some (jsOr a.termination_risk 0)⟩) := rfl

/-- C3 amended: both formatters always produce a `risk_scores` object;
when the upstream object is missing they substitute `field || 0` (a `0`
default, not `5.0`) per score — `formatComparisonData`'s substitute has
no `termination_risk` key while `formatAnalysisData`'s does — and when
the upstream object is present it is passed through unchanged, fields
missing from it included. -/
theorem c3_default_zero_formatting (a : AnalysisData) :
    ((formatComparisonItem a).risk_scores.isSome ∧
     (formatAnalysisObj a).risk_scores.isSome) ∧
    (a.risk_scores = none →
      (formatComparisonItem a).risk_scores = some
        ⟨some (jsOr a.data_risk 0), some (jsOr a.user_rights_score 0),
         some (jsOr a.readability_score 0), some (jsOr a.overall_risk 0), none⟩ ∧
      (formatAnalysisObj a).risk_scores = some
        ⟨some (jsOr a.data_risk 0), some (jsOr a.user_rights_score 0),
         some (jsOr a.readability_score 0), some (jsOr a.overall_risk 0),
         some (jsOr a.termination_risk 0)⟩) ∧
    (∀ rs : RiskScores, a.risk_scores = some rs →
      (formatComparisonItem a).risk_scores = some rs ∧
      (formatAnalysisObj a).risk_scores = some rs) := by
  refine ⟨⟨?_, ?_⟩, fun hnone => ⟨?_, ?_⟩, fun rs h => ⟨?_, ?_⟩⟩
  · rw [formatComparisonItem_risk_scores]
    rfl
  · rw [formatAnalysisObj_risk_scores]
    rfl
  · rw [formatComparisonItem_risk_scores, hnone]
  · rw [formatAnalysisObj_risk_scores, hnone]
  · rw [formatComparisonItem_risk_scores, h]
  · rw [formatAnalysisObj_risk_scores, h]

/-- Witness for C3 amended at the all-absent record: the comparison
formatter yields the `|| 0` substitute object. -/
theorem c3_default_zero_formatting_witness :
    (formatComparisonItem blankAnalysis).risk_scores =
      some ⟨some (jsOr blankAnalysis.data_risk 0), some (jsOr blankAnalysis.user_rights_score 0),
        some (jsOr blankAnalysis.readability_score 0), some (jsOr blankAnalysis.overall_risk 0),
        none⟩ :=
  ((c3_default_zero_formatting blankAnalysis).2.1 (by decide)).1

/-- C7: every call site that classifies `user_rights_score` or
`readability_score` into a risk level or color first inverts the score
(`10 - score`) before applying the uniform thresholds; consequently on
these axes the `high` class means a score of at most 3 and the `low`
class means a score above 6. -/
theorem c7_inverted_bucketing (rs : RiskScores) (u r : ℚ)
    (hu : rs.user_rights_score = some u) (hr : rs.readability_score = some r) :
    (compUserRightsBadgeClass (some rs) = getRiskLevel (10 - u) ∧
     analysisUserRightsCardClass (some rs) = getRiskLevel (10 - u) ∧
     chartUserRightsColor (some rs) = getRiskColor (10 - u)) ∧
    (compReadabilityBadgeClass (some rs) = getRiskLevel (10 - r) ∧
     analysisReadabilityCardClass (some rs) = getRiskLevel (10 - r) ∧
     chartReadabilityColor (some rs) = getRiskColor (10 - r)) ∧
    ((getRiskLevel (10 - u) = "high" ↔ u ≤ 3) ∧
     (getRiskLevel (10 - u) = "low" ↔ 6 < u) ∧
     (getRiskColor (10 - u) = "#ff4757" ↔ u ≤ 3) ∧
     (getRiskColor (10 - u) = "#2ed573" ↔ 6 < u)) := by
  refine ⟨⟨?_, ?_, ?_⟩, ⟨?_, ?_, ?_⟩, ?_, ?_, ?_, ?_⟩
  · simp [compUserRightsBadgeClass, hu, jsOr_some_zero]
  · simp [analysisUserRightsCardClass, hu, jsOr_some_zero]
  · simp [chartUserRightsColor, hu, jsOr_some_zero]
  · simp [compReadabilityBadgeClass, hr, jsOr_some_zero]
  · simp [analysisReadabilityCardClass, hr, jsOr_some_zero]
  · simp [chartReadabilityColor, hr, jsOr_some_zero]
  · rw [getRiskLevel_eq_high]
    constructor <;> intro h <;> linarith
  · rw [getRiskLevel_eq_low]
    constructor <;> intro h <;> linarith
  · rw [getRiskColor_eq_red]
    constructor <;> intro h <;> linarith
  · rw [getRiskColor_eq_green]
    constructor <;> intro h <;> linarith

/-- Witness for C7: a user-rights score of 9 (strong rights) classifies
as the inverted score 1 does, i.e. as low risk. -/
theorem c7_inverted_bucketing_witness :
    compUserRightsBadgeClass (some ⟨some 2, some 9, some 8, some 3, some 1⟩) =
      getRiskLevel (10 - 9) ∧ getRiskLevel (10 - 9) = "low" :=
  ⟨((c7_inverted_bucketing ⟨some 2, some 9, some 8, some 3, some 1⟩ 9 8 rfl rfl).1).1,
   by norm_num [getRiskLevel]⟩

theorem parseGroup_nonneg (g : List Char) : 0 ≤ parseGroup g := by
  unfold parseGroup
  split
  · exact Nat.cast_nonneg _
  · split_ifs with hc
    · exact add_nonneg (Nat.cast_nonneg _)
        (div_nonneg (Nat.cast_nonneg _) (pow_nonneg (by norm_num) _))
    · exact le_refl 0

theorem extractScore_nonneg (line : String) : 0 ≤ extractScore line := by
  unfold extractScore
  cases h : firstMatch line.data with
  | none => exact le_refl 0
  | some g => exact parseGroup_nonneg g

/-- All score fields are nonnegative whenever present. -/
abbrev scoresNonneg (rs : RiskScores) : Prop :=
  (∀ q : ℚ, rs.data_risk = some q → 0 ≤ q) ∧
  (∀ q : ℚ, rs.user_rights_score = some q → 0 ≤ q) ∧
  (∀ q : ℚ, rs.readability_score = some q → 0 ≤ q) ∧
  (∀ q : ℚ, rs.overall_risk = some q → 0 ≤ q) ∧
  (∀ q : ℚ, rs.termination_risk = some q → 0 ≤ q)

theorem parseStep_nonneg (rs : RiskScores) (line : String) (h : scoresNonneg rs) :
    scoresNonneg (parseStep rs line) := by
  obtain ⟨h1, h2, h3, h4, h5⟩ := h
  unfold parseStep
  split_ifs with hl1 hl2 hl3 hl4
  · exact ⟨fun q hq => (Option.some.inj hq) ▸ extractScore_nonneg line, h2, h3, h4, h5⟩
  · exact ⟨h1, fun q hq => (Option.some.inj hq) ▸ extractScore_nonneg line, h3, h4, h5⟩
  · exact ⟨h1, h2, fun q hq => (Option.some.inj hq) ▸ extractScore_nonneg line, h4, h5⟩
  · exact ⟨h1, h2, h3, fun q hq => (Option.some.inj hq) ▸ extractScore_nonneg line, h5⟩
  · exact ⟨h1, h2, h3, h4, h5⟩

theorem foldl_parseStep_nonneg (lines : List String) (rs : RiskScores)
    (h : scoresNonneg rs) : scoresNonneg (lines.foldl parseStep rs) := by
  induction lines generalizing rs with
  | nil => exact h
  | cons l ls ih => exact ih _ (parseStep_nonneg rs l h)

/-- The line used to exhibit the missing upper bound of `extractScore`. -/
def tableLine25 : String := "Data Risk: 25/10"

/-- Counterexample to C8 as stated: the score extracted from the table
line `Data Risk: 25/10` is 25, which is outside `[0, 10]`, and it lands
unchanged in the parsed `risk_scores`. -/
theorem c8_range_counterexample :
    extractScore tableLine25 = 25 ∧ ¬ extractScore tableLine25 ≤ 10 ∧
    (parseTableData tableLine25).risk_scores.data_risk = some 25 := by
  refine ⟨by decide, by decide, by decide⟩

/-- C8 amended: scores produced by parsing are nonnegative — every
`extractScore` result is `≥ 0` and every score field `parseTableData`
populates is `≥ 0` — but no upper bound of 10 is enforced anywhere in
the parsing path. -/
theorem c8_parsed_scores_nonneg :
    (∀ line : String, 0 ≤ extractScore line) ∧
    (∀ tableString : String, scoresNonneg (parseTableData tableString).risk_scores) := by
  refine ⟨extractScore_nonneg, fun t => ?_⟩
  exact foldl_parseStep_nonneg _ emptyScores
    ⟨fun q hq => (nomatch hq), fun q hq => (nomatch hq), fun q hq => (nomatch hq),
     fun q hq => (nomatch hq), fun q hq => (nomatch hq)⟩

/-- Witness for C8 amended at the `25/10` line: the extracted score is
nonnegative (it is 25). -/
theorem c8_parsed_scores_nonneg_witness :
    (0 : ℚ) ≤ extractScore tableLine25 ∧ extractScore tableLine25 = 25 :=
  ⟨c8_parsed_scores_nonneg.1 tableLine25, by decide⟩

end Neulex
